import Mathlib

/-!
Shallow embedding of the concurrent frame pipeline in src/main.py
(class YOLOVideoApp): the bounded hand-off queue, the ingestion loop
(receive_frames), the decimating inference/display loop (display_frames),
and the control operations (start_video, toggle_pause_task,
stop_video_task). Frames and detection results are modelled as plain
data; the detector collaborator is a parameter returning either a result
list or an error (a raised Python exception).
-/

/-- A video frame; the image payload is opaque to the control flow under
verification, so a frame is identified by a tag. -/
structure Frame where
  id : Nat
deriving DecidableEq, Repr

/-- One detection as built in display_frames (main.py lines 133-135):
a dict with a label and a confidence. The code stores a Python float;
no arithmetic is ever performed on it in the verified control flow, so
the numeric payload is modelled as an integer tag. -/
structure DetectionResult where
  label : String
  confidence : Int
deriving DecidableEq, Repr

/-- The mutable attributes of YOLOVideoApp that the pipeline reads and
writes (main.py lines 24-34): skip factor, decimation counter, the
bounded queue (with its construction-time maxsize), the shared control
booleans, the selected video path and the shared detections list.
The queue is a FIFO list, head = oldest. -/
structure AppState where
  skip_frames : Nat
  frame_counter : Nat
  queue : List Frame
  queue_maxsize : Nat
  running : Bool
  paused : Bool
  video_path : Option String
  detections : List DetectionResult
deriving DecidableEq, Repr

/-- The state built by YOLOVideoApp.__init__ (main.py lines 21-34):
frame_counter 0, queue maxsize 10 and empty, running and paused False,
no video path, empty detections list. -/
def init_state (skip_frames_arg : Nat) : AppState :=
  { skip_frames := skip_frames_arg
    frame_counter := 0
    queue := []
    queue_maxsize := 10
    running := false
    paused := false
    video_path := none
    detections := [] }

/-- queue.Queue.full() for a queue built with maxsize > 0: true iff the
current size has reached maxsize. -/
def queue_full (maxsize : Nat) (q : List Frame) : Bool :=
  decide (maxsize ≤ q.length)

/-- The producer-side enqueue attempt in receive_frames (main.py
lines 110-111): `if ret and not self.queue.full(): self.queue.put(frame)`.
If capacity remains the frame is appended and the attempt succeeds;
otherwise the queue is left unchanged (the just-read frame is dropped)
and the attempt reports failure. Never blocks. -/
def try_enqueue (maxsize : Nat) (q : List Frame) (f : Frame) : List Frame × Bool :=
  if queue_full maxsize q then (q, false) else (q ++ [f], true)

/-- A sequence of enqueue attempts with no interleaved dequeue: folds
try_enqueue over the attempted frames, returning the final queue and the
number of dropped frames. -/
def run_enqueues (maxsize : Nat) (q : List Frame) : List Frame → List Frame × Nat
  | [] => (q, 0)
  | f :: fs =>
    let step := try_enqueue maxsize q f
    let rest := run_enqueues maxsize step.1 fs
    (rest.1, rest.2 + (if step.2 then 0 else 1))

/-- The decimation filter of display_frames (main.py lines 123-126)
applied to a list of dequeued frames, starting from counter value c: the
counter advances for every dequeued frame, and a frame is forwarded to
the detector exactly when the incremented counter is divisible by the
skip factor K. Returns the forwarded frames in order. -/
def decimate (K : Nat) : Nat → List Frame → List Frame
  | _, [] => []
  | c, f :: fs =>
    if (c + 1) % K = 0 then f :: decimate K (c + 1) fs
    else decimate K (c + 1) fs

/-- Spec-side helper: pair each list element with its counter value,
counting from n upward (n = 1 gives 1-based positions). -/
def indexed_from (n : Nat) : List Frame → List (Nat × Frame)
  | [] => []
  | f :: fs => (n, f) :: indexed_from (n + 1) fs

/-- The failure named by the spec for start() without a selected video.
The code (main.py lines 150-152) signals this condition by printing
"No video selected." and returning early; the embedding records that
early-failure return path as this error value. -/
inductive StartError
  | noVideoSelectedError
deriving DecidableEq, Repr

/-- Python truthiness of self.video_path as tested by
`if not self.video_path` (main.py line 150): falsy when it is still None
or when the file dialog returned an empty string. -/
def path_falsy : Option String → Bool
  | none => true
  | some p => p.isEmpty

/-- YOLOVideoApp.start_video (main.py lines 148-159). Returns the new
state, whether the two worker threads (receive_frames, display_frames)
were created, and the failure signalled when no video is selected. With
no selected video it prints and returns: state untouched, no threads.
Otherwise it sets running True, paused False and starts both workers. -/
def start_video (s : AppState) : AppState × Bool × Option StartError :=
  if path_falsy s.video_path then
    (s, false, some StartError.noVideoSelectedError)
  else
    ({ s with running := true, paused := false }, true, none)

/-- YOLOVideoApp.toggle_pause_task (main.py lines 90-92): the single
Pause/Resume control, which flips the paused flag. -/
def toggle_pause_task (s : AppState) : AppState :=
  { s with paused := !s.paused }

/-- YOLOVideoApp.stop_video_task (main.py lines 94-99): clears running
and paused. (It also resets the display label, which is presentation
plumbing outside the modelled state.) Note it does not touch
frame_counter, the queue or detections. -/
def stop_video_task (s : AppState) : AppState :=
  { s with running := false, paused := false }

/-- Outcome of one iteration of the display_frames while-loop body:
the loop condition failed (exited); the queue was empty so nothing was
consumed (idled); a frame was dequeued but discarded by decimation
(skipped); a frame was forwarded and the detector succeeded (detected);
a frame was forwarded and the detector raised — the exception is
uncaught, so it propagates out of the loop and kills the display thread
(crashed). -/
inductive StepOutcome
  | exited
  | idled
  | skipped
  | detected
  | crashed
deriving DecidableEq, Repr

/-- One iteration of YOLOVideoApp.display_frames (main.py lines 117-146).
Mirrors the code exactly: test self.running; if the queue is non-empty,
dequeue, increment frame_counter, discard unless the counter is a
multiple of skip_frames, otherwise invoke the detector and, on success,
replace the published detections. The paused flag is never consulted
anywhere in this function. The detector d stands for self.model plus the
result-unpacking of lines 129-135; an error is a raised exception. -/
def display_iter (d : Frame → Except Unit (List DetectionResult))
    (s : AppState) : AppState × StepOutcome :=
  if s.running then
    match s.queue with
    | [] => (s, StepOutcome.idled)
    | f :: rest =>
      if (s.frame_counter + 1) % s.skip_frames ≠ 0 then
        ({ s with queue := rest, frame_counter := s.frame_counter + 1 },
          StepOutcome.skipped)
      else
        match d f with
        | Except.error _ =>
          ({ s with queue := rest, frame_counter := s.frame_counter + 1 },
            StepOutcome.crashed)
        | Except.ok dets =>
          ({ s with queue := rest, frame_counter := s.frame_counter + 1, detections := dets },
            StepOutcome.detected)
  else (s, StepOutcome.exited)

/-- The display_frames loop itself, run for at most fuel iterations.
It stops when the loop condition fails (exited) or when an uncaught
detector exception propagates out of the loop body (crashed); `none`
means the fuel ran out with the loop still live. -/
def display_run (d : Frame → Except Unit (List DetectionResult)) :
    Nat → AppState → AppState × Option StepOutcome
  | 0, s => (s, none)
  | fuel + 1, s =>
    match display_iter d s with
    | (s1, StepOutcome.exited) => (s1, some StepOutcome.exited)
    | (s1, StepOutcome.crashed) => (s1, some StepOutcome.crashed)
    | (s1, _) => display_run d fuel s1

/-- How a run of YOLOVideoApp.receive_frames ended: the loop condition
self.running was observed false (stopped); cap.read returned ret False,
covering both end-of-stream and read failure (eof); or the modelled
observation schedule was exhausted with the loop still live, i.e. the
function has not exited (outOfSchedule). -/
inductive RecvExit
  | stopped
  | eof
  | outOfSchedule
deriving DecidableEq, Repr

/-- YOLOVideoApp.receive_frames (main.py lines 101-115). ctrl is the
finite schedule of (running, paused) values the loop observes at the top
of each iteration, written externally by the controller; reads is the
stream of cap.read results, `none` meaning ret False (end-of-stream or
read failure; an exhausted list also reads as ret False). Returns the
final queue, whether cap.release() was executed, and how the run ended.
Faithful to the code: a paused iteration sleeps without reading; a
successful read enqueues only when the queue is not full (a full queue
silently drops the just-read frame and continues); ret False breaks out
of the loop; cap.release() runs after the loop on every exit. -/
def receive_run (maxsize : Nat) :
    List (Bool × Bool) → List (Option Frame) → List Frame →
    List Frame × Bool × RecvExit
  | [], _, q => (q, false, RecvExit.outOfSchedule)
  | (rn, ps) :: ctrl, reads, q =>
    if rn then
      if ps then receive_run maxsize ctrl reads q
      else
        match reads with
        | [] => (q, true, RecvExit.eof)
        | none :: _ => (q, true, RecvExit.eof)
        | some f :: rest =>
          if queue_full maxsize q then receive_run maxsize ctrl rest q
          else receive_run maxsize ctrl rest (q ++ [f])
    else (q, true, RecvExit.stopped)

/-- The sequence of values an observer of self.detections can read while
display_frames publishes new results (main.py lines 130-135): the code
first rebinds self.detections to a fresh empty list and then appends the
results one by one, so the observable values are the previous snapshot,
the cleared empty list, and every prefix of the new results as the
appends execute. -/
def publish_states (old new : List DetectionResult) :
    List (List DetectionResult) :=
  old :: (List.range (new.length + 1)).map (fun k => new.take k)

/-- A detector that always succeeds with no detections; used to evaluate
the embedding at concrete inputs. -/
def detect_none : Frame → Except Unit (List DetectionResult) :=
  fun _ => Except.ok []

/-- A detector whose invocation always raises; used to evaluate the
embedding at concrete inputs. -/
def detect_fail : Frame → Except Unit (List DetectionResult) :=
  fun _ => Except.error ()

/-- A concrete detection value, one of the SKU labels of main.py. -/
def d_wraps : DetectionResult := { label := "wraps", confidence := 1601 }

/-- A concrete detection value, one of the SKU labels of main.py. -/
def d_salads : DetectionResult := { label := "salads", confidence := 1101 }

/-- A concrete detection value, one of the SKU labels of main.py. -/
def d_pudding : DetectionResult := { label := "pudding", confidence := 2706 }

/-- A concrete state: pipeline running, paused set, one frame waiting in
the queue. -/
def paused_state : AppState :=
  { init_state 5 with running := true, paused := true, queue := [{ id := 0 }] }

/-- A concrete state: skip factor 1 (every frame forwarded), two frames
queued, a previously published detection. -/
def crash_state : AppState :=
  { init_state 1 with running := true, queue := [{ id := 1 }, { id := 2 }], detections := [d_wraps] }

/-- A concrete state whose selected path names no openable video file. -/
def bad_path_state : AppState :=
  { init_state 5 with video_path := some "nonexistent.mp4" }

/-! ## Decimation (claim C1) -/

/-- The decimation filter keeps exactly the frames whose counter value
(counting from c + 1) is divisible by K. -/
theorem decimate_indexed (K : Nat) (frames : List Frame) :
    ∀ c, decimate K c frames =
      ((indexed_from (c + 1) frames).filter (fun p => p.1 % K == 0)).map Prod.snd := by
  induction frames with
  | nil => intro c; rfl
  | cons f fs ih =>
    intro c
    by_cases h : (c + 1) % K = 0
    · simp [decimate, indexed_from, List.filter_cons, h, ih (c + 1)]
    · simp [decimate, indexed_from, List.filter_cons, h, ih (c + 1)]

/-- Counting lemma: the number of forwarded frames starting from counter
value c satisfies a quotient identity. -/
theorem decimate_length (K : Nat) (frames : List Frame) :
    ∀ c, (decimate K c frames).length + c / K = (c + frames.length) / K := by
  induction frames with
  | nil => intro c; simp [decimate]
  | cons f fs ih =>
    intro c
    have hs : c + (fs.length + 1) = (c + 1) + fs.length := by omega
    by_cases h : (c + 1) % K = 0
    · have hd : K ∣ c + 1 := Nat.dvd_of_mod_eq_zero h
      have hdiv : (c + 1) / K = c / K + 1 := Nat.succ_div_of_dvd hd
      have hih := ih (c + 1)
      simp only [decimate, if_pos h, List.length_cons]
      rw [hs]
      omega
    · have hnd : ¬ K ∣ c + 1 := by
        intro hd
        obtain ⟨t, ht⟩ := hd
        exact h (by rw [ht]; exact Nat.mul_mod_right K t)
      have hdiv : (c + 1) / K = c / K := Nat.succ_div_of_not_dvd hnd
      have hih := ih (c + 1)
      simp only [decimate, if_neg h, List.length_cons]
      rw [hs]
      omega

/-- C1: for every skip factor K ≥ 1 and every run in which N frames are
delivered to the decimation counter of display_frames (counter starting
at 0), exactly floor(N/K) of those frames are forwarded to the detector,
and they are exactly the frames whose 1-based counter value is a
multiple of K. -/
theorem decimator_forwards_floor (K : Nat) (hK : 1 ≤ K) (frames : List Frame) :
    (decimate K 0 frames).length = frames.length / K ∧
    decimate K 0 frames =
      ((indexed_from 1 frames).filter (fun p => p.1 % K == 0)).map Prod.snd := by
  constructor
  · have h := decimate_length K frames 0
    simpa using h
  · simpa using decimate_indexed K frames 0

/-- Witness for decimator_forwards_floor at K = 2 on five frames:
frames 2 and 4 are forwarded, 5 / 2 = 2. -/
theorem decimator_forwards_floor_witness :
    (decimate 2 0 [{ id := 0 }, { id := 1 }, { id := 2 }, { id := 3 }, { id := 4 }]).length =
      ([{ id := 0 }, { id := 1 }, { id := 2 }, { id := 3 }, { id := 4 }] : List Frame).length / 2 ∧
    decimate 2 0 [{ id := 0 }, { id := 1 }, { id := 2 }, { id := 3 }, { id := 4 }] =
      ((indexed_from 1 [{ id := 0 }, { id := 1 }, { id := 2 }, { id := 3 }, { id := 4 }]).filter
        (fun p => p.1 % 2 == 0)).map Prod.snd :=
  decimator_forwards_floor 2 (by decide)
    [{ id := 0 }, { id := 1 }, { id := 2 }, { id := 3 }, { id := 4 }]

/-! ## Bounded queue (claim C6) -/

/-- Every enqueue attempt either retains the frame or reports a drop:
retained plus dropped equals initial size plus attempts. -/
theorem run_enqueues_conservation (C : Nat) (fs : List Frame) :
    ∀ q, (run_enqueues C q fs).1.length + (run_enqueues C q fs).2 =
      q.length + fs.length := by
  induction fs with
  | nil => intro q; simp [run_enqueues]
  | cons f fs ih =>
    intro q
    cases h : queue_full C q with
    | true =>
      have hih := ih q
      simp [run_enqueues, try_enqueue, h]
      omega
    | false =>
      have hih := ih (q ++ [f])
      simp [run_enqueues, try_enqueue, h]
      simp [List.length_append] at hih
      omega

/-- The retained size after a burst of enqueue attempts is the minimum
of capacity and offered load, provided the queue starts within
capacity. -/
theorem run_enqueues_length (C : Nat) (fs : List Frame) :
    ∀ q, q.length ≤ C →
      (run_enqueues C q fs).1.length = min C (q.length + fs.length) := by
  induction fs with
  | nil => intro q hq; simp [run_enqueues]; omega
  | cons f fs ih =>
    intro q hq
    cases h : queue_full C q with
    | true =>
      have hC : C ≤ q.length := by simpa [queue_full] using h
      have hih := ih q hq
      have e1 : min C (q.length + (f :: fs).length) = C := min_eq_left (by simp; omega)
      have e2 : min C (q.length + fs.length) = C := min_eq_left (by omega)
      rw [e2] at hih
      rw [e1]
      simpa [run_enqueues, try_enqueue, h] using hih
    | false =>
      have hlt : ¬ C ≤ q.length := by simpa [queue_full] using h
      have hle : (q ++ [f]).length ≤ C := by simp; omega
      have hih := ih (q ++ [f]) hle
      have harith : (q ++ [f]).length + fs.length = q.length + (f :: fs).length := by
        simp; omega
      rw [harith] at hih
      simpa [run_enqueues, try_enqueue, h] using hih

/-- C6: for every capacity C > 0 and every burst of N > C enqueue
attempts starting from an empty queue with no interleaved dequeue,
exactly C frames are retained and N - C are dropped; every intermediate
queue (after any prefix of the attempts) has size at most C; and an
enqueue attempt on a full queue leaves the queue unchanged — the
just-read newest frame is dropped — and reports failure without
blocking. -/
theorem bounded_queue_spec (C : Nat) (attempts : List Frame) (n : Nat)
    (q : List Frame) (f : Frame)
    (hC : 0 < C) (hN : C < attempts.length) (hq : C ≤ q.length) :
    (run_enqueues C [] attempts).1.length = C ∧
    (run_enqueues C [] attempts).2 = attempts.length - C ∧
    (run_enqueues C [] (attempts.take n)).1.length ≤ C ∧
    try_enqueue C q f = (q, false) := by
  have hlen := run_enqueues_length C attempts [] (by simp)
  have hcons := run_enqueues_conservation C attempts []
  simp only [List.length_nil, Nat.zero_add] at hlen hcons
  have htake := run_enqueues_length C (attempts.take n) [] (by simp)
  simp only [List.length_nil, Nat.zero_add] at htake
  refine ⟨?_, ?_, ?_, ?_⟩
  · rw [hlen]; omega
  · rw [hlen] at hcons; omega
  · rw [htake]; omega
  · simp [try_enqueue, queue_full, hq]

/-- Witness for bounded_queue_spec: capacity 2, three attempts, a full
queue of two frames. -/
theorem bounded_queue_spec_witness :
    (run_enqueues 2 [] [{ id := 0 }, { id := 1 }, { id := 2 }]).1.length = 2 ∧
    (run_enqueues 2 [] [{ id := 0 }, { id := 1 }, { id := 2 }]).2 =
      ([{ id := 0 }, { id := 1 }, { id := 2 }] : List Frame).length - 2 ∧
    (run_enqueues 2 [] (([{ id := 0 }, { id := 1 }, { id := 2 }] : List Frame).take 2)).1.length ≤ 2 ∧
    try_enqueue 2 [{ id := 7 }, { id := 8 }] { id := 9 } = ([{ id := 7 }, { id := 8 }], false) :=
  bounded_queue_spec 2 [{ id := 0 }, { id := 1 }, { id := 2 }] 2
    [{ id := 7 }, { id := 8 }] { id := 9 } (by decide) (by decide) (by decide)

/-! ## Control state (claims C5, C9, C10) -/

/-- C5: start_video with no selected video fails with the
no-video-selected error and performs no side effects: the returned state
is the input state unchanged (so running and paused keep their values
and the system stays idle) and no worker thread is created. -/
theorem start_without_video_noop (s : AppState)
    (h : path_falsy s.video_path = true) :
    start_video s = (s, false, some StartError.noVideoSelectedError) := by
  simp [start_video, h]

/-- Witness for start_without_video_noop at the freshly constructed
state, whose video_path is None. -/
theorem start_without_video_noop_witness :
    start_video (init_state 5) =
      (init_state 5, false, some StartError.noVideoSelectedError) :=
  start_without_video_noop (init_state 5) (by decide)

/-- C9 counterexample: the single Pause/Resume control of the code is a
toggle, not an idempotent pause or resume: applying it twice to the
fresh state does not leave the paused flag equal to applying it once. -/
theorem toggle_not_idempotent_cex :
    (toggle_pause_task (toggle_pause_task (init_state 5))).paused ≠
      (toggle_pause_task (init_state 5)).paused := by
  decide

/-- C9 amended: the pause/resume control is one toggle that flips the
paused flag; it is an involution — applying it twice restores the
original value — rather than an idempotent pause or resume. -/
theorem toggle_pause_involution (s : AppState) :
    (toggle_pause_task (toggle_pause_task s)).paused = s.paused ∧
    (toggle_pause_task s).paused = !s.paused := by
  constructor
  · simp [toggle_pause_task]
  · rfl

/-- C10: frame_counter is set to 0 once at construction; neither
stop_video_task nor start_video resets it, including a stop followed by
a fresh start, and the next frame consumed by the display loop continues
the count from the carried-over value. -/
theorem frame_counter_never_reset (k : Nat) (s : AppState)
    (d : Frame → Except Unit (List DetectionResult)) (f : Frame)
    (rest : List Frame) :
    (init_state k).frame_counter = 0 ∧
    (stop_video_task s).frame_counter = s.frame_counter ∧
    ((start_video s).1).frame_counter = s.frame_counter ∧
    ((start_video (stop_video_task s)).1).frame_counter = s.frame_counter ∧
    (display_iter d { s with running := true, queue := f :: rest }).1.frame_counter =
      s.frame_counter + 1 := by
  refine ⟨rfl, rfl, ?_, ?_, ?_⟩
  · by_cases h : path_falsy s.video_path = true <;> simp [start_video, h]
  · by_cases h : path_falsy s.video_path = true <;>
      simp [start_video, stop_video_task, h]
  · by_cases h : (s.frame_counter + 1) % s.skip_frames = 0
    · cases hd : d f with
      | error e => simp [display_iter, h, hd]
      | ok dets => simp [display_iter, h, hd]
    · simp [display_iter, h]

/-! ## Pause semantics (claim C2) -/

/-- While every observed control word is running-and-paused, the
ingestion loop of receive_frames makes no progress: it neither reads nor
enqueues, the queue is untouched, and the loop is still live when the
observation window ends. -/
theorem receive_run_all_paused (maxsize : Nat) :
    ∀ ctrl : List (Bool × Bool), (∀ p ∈ ctrl, p = (true, true)) →
    ∀ (reads : List (Option Frame)) (q : List Frame),
      receive_run maxsize ctrl reads q = (q, false, RecvExit.outOfSchedule) := by
  intro ctrl
  induction ctrl with
  | nil => intro _ reads q; rfl
  | cons p ctrl ih =>
    intro hc reads q
    have hp : p = (true, true) := hc p (by simp)
    subst hp
    have hrest : ∀ x ∈ ctrl, x = (true, true) := fun x hx => hc x (by simp [hx])
    simpa [receive_run] using ih hrest reads q

/-- C2 counterexample: with the pipeline running, paused set, and one
frame queued, a single iteration of the display loop still dequeues it —
the inference stage decreases queue occupancy while paused, because
display_frames never consults the paused flag. -/
theorem paused_display_consumes_cex :
    paused_state.paused = true ∧
    (display_iter detect_none paused_state).1.queue.length <
      paused_state.queue.length := by
  decide

/-- C2 amended: while paused, the ingestion stage makes no progress on
the queue, but the inference/display stage ignores the paused flag:
whenever the loop is running and the queue is non-empty it dequeues a
frame regardless of paused, so the queue drains rather than holding its
occupancy. -/
theorem paused_ignored_by_display (maxsize : Nat) (ctrl : List (Bool × Bool))
    (reads : List (Option Frame)) (q : List Frame)
    (d : Frame → Except Unit (List DetectionResult)) (s : AppState)
    (f : Frame) (rest : List Frame)
    (hc : ∀ p ∈ ctrl, p = (true, true)) :
    receive_run maxsize ctrl reads q = (q, false, RecvExit.outOfSchedule) ∧
    (display_iter d { s with running := true, paused := true, queue := f :: rest }).1.queue =
      rest := by
  constructor
  · exact receive_run_all_paused maxsize ctrl hc reads q
  · by_cases h : (s.frame_counter + 1) % s.skip_frames = 0
    · cases hd : d f with
      | error e => simp [display_iter, h, hd]
      | ok dets => simp [display_iter, h, hd]
    · simp [display_iter, h]

/-- Witness for paused_ignored_by_display: a two-iteration all-paused
window for ingestion, and the concrete paused display state. -/
theorem paused_ignored_by_display_witness :
    receive_run 10 [(true, true), (true, true)] [] [] =
      ([], false, RecvExit.outOfSchedule) ∧
    (display_iter detect_none
      { init_state 5 with running := true, paused := true, queue := [{ id := 0 }] }).1.queue =
      [] :=
  paused_ignored_by_display 10 [(true, true), (true, true)] [] []
    detect_none (init_state 5) { id := 0 } [] (by decide)

/-! ## Snapshot publication (claim C3) -/

/-- C3 counterexample: while display_frames publishes the results
[salads, pudding] over the previous snapshot [wraps], an observer of
self.detections can read the cleared empty list and the one-element
partial list — values that are neither the previous snapshot nor the
new complete one, because the code clears the shared list and then
appends element by element. -/
theorem snapshot_partial_cex :
    ([] : List DetectionResult) ∈ publish_states [d_wraps] [d_salads, d_pudding] ∧
    ([] : List DetectionResult) ≠ [d_wraps] ∧
    ([] : List DetectionResult) ≠ [d_salads, d_pudding] ∧
    [d_salads] ∈ publish_states [d_wraps] [d_salads, d_pudding] ∧
    [d_salads] ≠ [d_wraps] ∧
    [d_salads] ≠ [d_salads, d_pudding] := by
  decide

/-- C3 amended: the values observable while a new detections list is
being published are exactly the previous snapshot and the prefixes of
the new results (including the cleared empty list); an observer can thus
see a partially constructed value, never anything outside this set. -/
theorem snapshot_observables (old new x : List DetectionResult)
    (hx : x ∈ publish_states old new) :
    x = old ∨ ∃ k, k ≤ new.length ∧ x = new.take k := by
  simp only [publish_states, List.mem_cons, List.mem_map, List.mem_range] at hx
  rcases hx with h | ⟨k, hk, hkx⟩
  · exact Or.inl h
  · exact Or.inr ⟨k, by omega, hkx.symm⟩

/-- Witness for snapshot_observables at the concrete publication of
[salads, pudding] over [wraps], observing the partial value [salads]. -/
theorem snapshot_observables_witness :
    [d_salads] = [d_wraps] ∨
    ∃ k, k ≤ ([d_salads, d_pudding] : List DetectionResult).length ∧
      [d_salads] = List.take k [d_salads, d_pudding] :=
  snapshot_observables [d_wraps] [d_salads, d_pudding] [d_salads] (by decide)

/-! ## Detector failure (claim C4) -/

/-- Evaluation of one display iteration on a forwarded frame whose
detector invocation raises: the frame is consumed, the counter advances,
the published detections are untouched, and the outcome is the uncaught
exception. -/
theorem display_iter_crash (d : Frame → Except Unit (List DetectionResult))
    (s : AppState) (f : Frame) (rest : List Frame)
    (hr : s.running = true) (hq : s.queue = f :: rest)
    (hk : (s.frame_counter + 1) % s.skip_frames = 0)
    (hd : d f = Except.error ()) :
    display_iter d s =
      ({ s with queue := rest, frame_counter := s.frame_counter + 1 },
        StepOutcome.crashed) := by
  simp [display_iter, hr, hq, hk, hd]

/-- C4 counterexample: with a detector that always raises, skip factor 1
and two queued frames, the display loop does not continue to the next
iteration: the run ends as crashed with the second frame still queued
(it is never consumed), while the previously published detections
remain. -/
theorem detector_crash_stops_loop_cex :
    (display_run detect_fail 5 crash_state).2 = some StepOutcome.crashed ∧
    (display_run detect_fail 5 crash_state).1.queue = [{ id := 2 }] ∧
    (display_run detect_fail 5 crash_state).1.detections = [d_wraps] := by
  decide

/-- C4 amended: when the detector invocation on a forwarded frame
raises, the published detections retain their previous value, but the
exception is uncaught: the display loop terminates at that iteration
instead of continuing — detector errors abort the display thread. -/
theorem detector_failure_kills_loop (d : Frame → Except Unit (List DetectionResult))
    (s : AppState) (f : Frame) (rest : List Frame) (fuel : Nat)
    (hr : s.running = true) (hq : s.queue = f :: rest)
    (hk : (s.frame_counter + 1) % s.skip_frames = 0)
    (hd : d f = Except.error ()) :
    (display_iter d s).2 = StepOutcome.crashed ∧
    (display_iter d s).1.detections = s.detections ∧
    display_run d (fuel + 1) s = ((display_iter d s).1, some StepOutcome.crashed) := by
  have h := display_iter_crash d s f rest hr hq hk hd
  refine ⟨by rw [h], by rw [h], ?_⟩
  simp only [display_run, h]

/-- Witness for detector_failure_kills_loop at the concrete crash
state. -/
theorem detector_failure_kills_loop_witness :
    (display_iter detect_fail crash_state).2 = StepOutcome.crashed ∧
    (display_iter detect_fail crash_state).1.detections = crash_state.detections ∧
    display_run detect_fail 3 crash_state =
      ((display_iter detect_fail crash_state).1, some StepOutcome.crashed) :=
  detector_failure_kills_loop detect_fail crash_state { id := 1 } [{ id := 2 }] 2
    (by decide) (by decide) (by decide) rfl

/-! ## Capture release (claim C7) and unopenable sources (claim C8) -/

/-- Every run of the ingestion loop either executed cap.release() or has
not exited yet (its observation window ended with the loop live). -/
theorem receive_run_release (maxsize : Nat) :
    ∀ (ctrl : List (Bool × Bool)) (reads : List (Option Frame)) (q : List Frame),
      (receive_run maxsize ctrl reads q).2.1 = true ∨
      (receive_run maxsize ctrl reads q).2.2 = RecvExit.outOfSchedule := by
  intro ctrl
  induction ctrl with
  | nil => intro reads q; exact Or.inr rfl
  | cons p ctrl ih =>
    intro reads q
    obtain ⟨rn, ps⟩ := p
    cases rn with
    | false => simp [receive_run]
    | true =>
      cases ps with
      | true => simpa [receive_run] using ih reads q
      | false =>
        cases reads with
        | nil => simp [receive_run]
        | cons r rs =>
          cases r with
          | none => simp [receive_run]
          | some f =>
            cases hfull : queue_full maxsize q with
            | true => simpa [receive_run, hfull] using ih rs q
            | false => simpa [receive_run, hfull] using ih rs (q ++ [f])

/-- C7: on every exit path of the ingestion loop — the running flag
observed false, end-of-stream, or read failure — cap.release() is
executed, so the capture resource never leaks across a completed run. -/
theorem capture_released_on_exit (maxsize : Nat) (ctrl : List (Bool × Bool))
    (reads : List (Option Frame)) (q : List Frame)
    (h : (receive_run maxsize ctrl reads q).2.2 ≠ RecvExit.outOfSchedule) :
    (receive_run maxsize ctrl reads q).2.1 = true := by
  rcases receive_run_release maxsize ctrl reads q with hr | hr
  · exact hr
  · exact absurd hr h

/-- Witness for capture_released_on_exit: the loop observes running
false at once (normal stop) and releases the capture. -/
theorem capture_released_on_exit_witness :
    (receive_run 10 [(false, false)] [] []).2.2 ≠ RecvExit.outOfSchedule ∧
    (receive_run 10 [(false, false)] [] []).2.1 = true :=
  ⟨by decide, capture_released_on_exit 10 [(false, false)] [] [] (by decide)⟩

/-- C8 counterexample: with a selected path naming no openable video,
start() nevertheless succeeds — both worker threads are created and no
error is signalled — and the ingestion loop merely reads ret False at
once, exiting as end-of-stream with no frame produced. No
source-open failure exists anywhere in the code, and nothing surfaces
to the controller. -/
theorem unopenable_start_cex :
    (start_video bad_path_state).2.2 = none ∧
    (start_video bad_path_state).2.1 = true ∧
    receive_run 10 [(true, false)] [] [] = ([], true, RecvExit.eof) := by
  decide

/-- C8 amended: a video resource that cannot be opened is not a failed
start: whenever any path is selected, start() succeeds, creating both
worker threads and signalling no error — regardless of whether the path
is openable — and the ingestion loop treats the unopenable resource
(whose every read returns ret False) as an immediate end-of-stream,
producing no frames and releasing the capture. -/
theorem unopenable_source_is_silent_eof (s : AppState) (maxsize : Nat)
    (ctrl : List (Bool × Bool)) (q : List Frame)
    (h : path_falsy s.video_path = false) :
    (start_video s).2 = (true, none) ∧
    receive_run maxsize ((true, false) :: ctrl) [] q = (q, true, RecvExit.eof) := by
  constructor
  · simp [start_video, h]
  · rfl

/-- Witness for unopenable_source_is_silent_eof at the concrete bad-path
state. -/
theorem unopenable_source_is_silent_eof_witness :
    (start_video bad_path_state).2 = (true, none) ∧
    receive_run 10 [(true, false)] [] [] = ([], true, RecvExit.eof) :=
  unopenable_source_is_silent_eof bad_path_state 10 [] [] (by decide)
